import Mathlib

/-!
Shallow embedding of the laminar transport layer of this repository
(src/simulation/transport/laminar.rs and src/simulation/events.rs).

The three bevy systems of laminar.rs are modelled as pure state
transformers: bevy resources become explicit arguments, the
EventWriter event channel becomes a list of events that a system
appends to, and the wrapped laminar engine becomes an explicit
LaminarSocket record whose send verdicts are given by an oracle
function and whose pending inbound events are an explicit list.
Machine addresses, payload bytes and io error values are abstracted
as natural numbers / lists of naturals; none of the verified
properties depends on their internal structure.
-/

namespace Blaminar

/-- Network address (std::net::SocketAddr), abstracted. -/
abbrev SocketAddr := Nat

/-- Payload bytes (bytes::Bytes / Vec of u8), abstracted as a list. -/
abbrev Payload := List Nat

/-- An io::Error value, abstracted. -/
abbrev IoErr := Nat

/-- Modelled from the spec (section 3; the defining module
simulation/requirements.rs is not under src/, but all six variants and
their payloads are visible in the match of laminar_network_send_system):
the reliability/ordering contract an outbound message requests.  A
stream id is an optional lane identifier. -/
inductive DeliveryRequirement where
  | Unreliable
  | UnreliableSequenced (stream_id : Option Nat)
  | Reliable
  | ReliableSequenced (stream_id : Option Nat)
  | ReliableOrdered (stream_id : Option Nat)
  | Default
deriving DecidableEq, Repr

/-- Modelled from the spec (section 3; the defining module is not under
src/, but the three fields destination, payload and delivery are exactly
the ones read by laminar_network_send_system): one queued outbound
message. -/
structure Message where
  destination : SocketAddr
  payload : Payload
  delivery : DeliveryRequirement
deriving DecidableEq, Repr

/-- laminar::DeliveryGuarantee of a packet descriptor. -/
inductive DeliveryGuarantee where
  | Unreliable
  | Reliable
deriving DecidableEq, Repr

/-- laminar::OrderingGuarantee of a packet descriptor. -/
inductive OrderingGuarantee where
  | None
  | Sequenced (stream_id : Option Nat)
  | Ordered (stream_id : Option Nat)
deriving DecidableEq, Repr

/-- laminar::Packet: the transport-level send operation descriptor:
destination address, payload bytes, and the two guarantee tags. -/
structure Packet where
  addr : SocketAddr
  payload : Payload
  delivery : DeliveryGuarantee
  ordering : OrderingGuarantee
deriving DecidableEq, Repr

/-- laminar Packet::unreliable. -/
def Packet.unreliable (addr : SocketAddr) (payload : Payload) : Packet :=
  ⟨addr, payload, .Unreliable, .None⟩

/-- laminar Packet::unreliable_sequenced. -/
def Packet.unreliable_sequenced (addr : SocketAddr) (payload : Payload)
    (stream_id : Option Nat) : Packet :=
  ⟨addr, payload, .Unreliable, .Sequenced stream_id⟩

/-- laminar Packet::reliable_unordered. -/
def Packet.reliable_unordered (addr : SocketAddr) (payload : Payload) : Packet :=
  ⟨addr, payload, .Reliable, .None⟩

/-- laminar Packet::reliable_sequenced. -/
def Packet.reliable_sequenced (addr : SocketAddr) (payload : Payload)
    (stream_id : Option Nat) : Packet :=
  ⟨addr, payload, .Reliable, .Sequenced stream_id⟩

/-- laminar Packet::reliable_ordered. -/
def Packet.reliable_ordered (addr : SocketAddr) (payload : Payload)
    (stream_id : Option Nat) : Packet :=
  ⟨addr, payload, .Reliable, .Ordered stream_id⟩

/-- laminar::ErrorKind as discriminated by laminar_network_send_system:
the IOError variant carries an io::Error; every other variant of the
engine's error enum is collapsed into Other, since the send system
treats them all alike (the catch-all Err(e) arm). -/
inductive ErrorKind where
  | IOError (e : IoErr)
  | Other (code : Nat)
deriving DecidableEq, Repr

/-- laminar::SocketEvent: an inbound engine event.  A received packet
carries the sender address and payload (we reuse the Packet record;
packet.addr and packet.payload are the accessors the recv system
reads). -/
inductive SocketEvent where
  | Packet (packet : Packet)
  | Connect (addr : SocketAddr)
  | Disconnect (addr : SocketAddr)
  | Timeout (addr : SocketAddr)
deriving DecidableEq, Repr

/-- NetworkSimulationEvent from src/simulation/events.rs. -/
inductive NetworkSimulationEvent where
  | Message (addr : SocketAddr) (payload : Payload)
  | Connect (addr : SocketAddr)
  | Disconnect (addr : SocketAddr)
  | RecvError (e : IoErr)
  | SendError (e : IoErr) (message : Message)
  | ConnectionError (e : IoErr) (addr : Option SocketAddr)
deriving DecidableEq, Repr

/-- laminar::Socket, the wrapped transport engine, as the send/poll/recv
systems observe it: the bound local address; an oracle giving the
engine's verdict for sending a given packet (none models Ok, some e
models Err(e)); the list of packets handed to the engine so far (one
entry per socket.send call); the pending inbound events recv will
yield; and a counter of manual_poll calls. -/
structure LaminarSocket where
  localAddr : SocketAddr
  sendResults : Packet → Option ErrorKind
  sent : List Packet
  inbox : List SocketEvent
  polls : Nat

/-- laminar Socket::local_addr, which succeeds on a bound socket
(returned as some; a hypothetical failure would be none, making the
second unwrap of log_startup panic as well). -/
def LaminarSocket.local_addr (s : LaminarSocket) : Option SocketAddr :=
  some s.localAddr

/-- laminar Socket::send: records exactly one transport send operation
and returns the engine's verdict (none = Ok, some e = Err(e)). -/
def LaminarSocket.send (s : LaminarSocket) (packet : Packet) :
    LaminarSocket × Option ErrorKind :=
  ({ s with sent := s.sent ++ [packet] }, s.sendResults packet)

/-- laminar Socket::manual_poll: one engine call advancing its internal
clock; modelled by counting the calls. -/
def LaminarSocket.manual_poll (s : LaminarSocket) : LaminarSocket :=
  { s with polls := s.polls + 1 }

/-- laminar Socket::recv: pops the next pending inbound event, none
when the engine has no event left. -/
def LaminarSocket.recv (s : LaminarSocket) :
    Option (SocketEvent × LaminarSocket) :=
  match s.inbox with
  | [] => none
  | e :: rest => some (e, { s with inbox := rest })

/-- LaminarSocketResource from laminar.rs: optionally holds the live
engine instance. -/
structure LaminarSocketResource where
  socket : Option LaminarSocket

/-- LaminarSocketResource::default (socket: None). -/
def LaminarSocketResource.defaultResource : LaminarSocketResource :=
  ⟨none⟩

/-- LaminarSocketResource::new. -/
def LaminarSocketResource.new (socket : Option LaminarSocket) :
    LaminarSocketResource :=
  ⟨socket⟩

/-- LaminarSocketResource::get. -/
def LaminarSocketResource.get (r : LaminarSocketResource) :
    Option LaminarSocket :=
  r.socket

/-- LaminarSocketResource::set_socket. -/
def LaminarSocketResource.set_socket (r : LaminarSocketResource)
    (socket : LaminarSocket) : LaminarSocketResource :=
  { r with socket := some socket }

/-- LaminarSocketResource::drop_socket. -/
def LaminarSocketResource.drop_socket (r : LaminarSocketResource) :
    LaminarSocketResource :=
  { r with socket := none }

/-- Modelled from the spec (section 4.3; simulation/timing.rs is not
under src/): of the clock gate only the boolean verdict
should_send_message_now for the current invocation matters to the send
system, which uses it as a constant drain predicate. -/
structure NetworkSimulationTime where
  sendNow : Bool

/-- The clock gate's verdict, as read by the send system's drain
predicate. -/
def NetworkSimulationTime.should_send_message_now
    (t : NetworkSimulationTime) : Bool :=
  t.sendNow

/-- Modelled from the spec (sections 4.2 and 4.4; the TransportResource
module is not under src/): the outbound queue in submission order. -/
structure TransportResource where
  messages : List Message
deriving DecidableEq, Repr

/-- Modelled from the spec (section 4.2): drain_messages_to_send
removes and returns, in submission order, every queued message the
predicate accepts; the others stay queued. -/
def TransportResource.drain_messages_to_send (t : TransportResource)
    (p : Message → Bool) : List Message × TransportResource :=
  (t.messages.filter p, ⟨t.messages.filter fun m => !(p m)⟩)

/-- log_startup from laminar.rs: the startup system evaluates
socket.get().unwrap().local_addr().unwrap() to build its log line.
A none result models the Rust panic of Option::unwrap on None / of
Result::unwrap on Err: the function returns the logged address only
when both unwraps succeed. -/
def log_startup (socket : LaminarSocketResource) : Option SocketAddr :=
  match socket.get with
  | none => none
  | some s => s.local_addr

/-- The inline match of laminar_network_send_system (lines 66 to 107 of
laminar.rs) that turns one drained message's delivery requirement into
the one laminar Packet to send. -/
def mapDelivery (message : Message) : Packet :=
  match message.delivery with
  | .Unreliable =>
      Packet.unreliable message.destination message.payload
  | .UnreliableSequenced stream_id =>
      Packet.unreliable_sequenced message.destination message.payload stream_id
  | .Reliable =>
      Packet.reliable_unordered message.destination message.payload
  | .ReliableSequenced stream_id =>
      Packet.reliable_sequenced message.destination message.payload stream_id
  | .ReliableOrdered stream_id =>
      Packet.reliable_ordered message.destination message.payload stream_id
  | .Default =>
      Packet.reliable_ordered message.destination message.payload none

/-- One iteration of the send loop body of laminar_network_send_system:
build the packet, call socket.send, and on Err(ErrorKind::IOError(e))
push SendError(e, message) to the event channel; any other Err is only
logged (error! macro) and Ok adds nothing. -/
def sendOne (sock : LaminarSocket) (events : List NetworkSimulationEvent)
    (message : Message) : LaminarSocket × List NetworkSimulationEvent :=
  let packet := mapDelivery message
  let result := sock.send packet
  match result.2 with
  | some (ErrorKind.IOError e) =>
      (result.1, events ++ [NetworkSimulationEvent.SendError e message])
  | some (ErrorKind.Other _) => (result.1, events)
  | none => (result.1, events)

/-- laminar_network_send_system: a no-op when the handle is absent;
otherwise drain the queue under the clock-gate predicate and run the
send loop over the drained messages in order. -/
def laminar_network_send_system (transport : TransportResource)
    (socket : LaminarSocketResource)
    (event_channel : List NetworkSimulationEvent)
    (sim_time : NetworkSimulationTime) :
    TransportResource × LaminarSocketResource × List NetworkSimulationEvent :=
  match socket.socket with
  | none => (transport, socket, event_channel)
  | some sock =>
      let drained :=
        transport.drain_messages_to_send fun _ =>
          sim_time.should_send_message_now
      let final :=
        drained.1.foldl (fun acc message => sendOne acc.1 acc.2 message)
          (sock, event_channel)
      (drained.2, ⟨some final.1⟩, final.2)

/-- laminar_network_poll_system: one manual_poll call when the handle
is present, a no-op otherwise. -/
def laminar_network_poll_system (socket : LaminarSocketResource) :
    LaminarSocketResource :=
  match socket.socket with
  | none => socket
  | some sock => ⟨some sock.manual_poll⟩

/-- The match of laminar_network_recv_system that normalizes one engine
event: a received packet becomes Message(addr, copy of payload bytes),
Disconnect and Timeout both become Disconnect, Connect becomes
Connect. -/
def normalizeEvent : SocketEvent → NetworkSimulationEvent
  | .Packet packet => .Message packet.addr packet.payload
  | .Disconnect addr => .Disconnect addr
  | .Timeout addr => .Disconnect addr
  | .Connect addr => .Connect addr

/-- The while-let loop of laminar_network_recv_system: keep calling
socket.recv, appending the normalized event to the channel, until the
engine reports no event left. -/
def recvLoop (sock : LaminarSocket)
    (events : List NetworkSimulationEvent) :
    LaminarSocket × List NetworkSimulationEvent :=
  match h : sock.recv with
  | none => (sock, events)
  | some (e, sock1) => recvLoop sock1 (events ++ [normalizeEvent e])
termination_by sock.inbox.length
decreasing_by
  unfold LaminarSocket.recv at h
  cases hm : sock.inbox with
  | nil => rw [hm] at h; exact absurd h (by simp)
  | cons a rest =>
      rw [hm] at h
      simp at h
      obtain ⟨h1, h2⟩ := h
      rw [← h2]
      simp

/-- laminar_network_recv_system: a no-op when the handle is absent;
otherwise drain and normalize every pending inbound event. -/
def laminar_network_recv_system (socket : LaminarSocketResource)
    (event_channel : List NetworkSimulationEvent) :
    LaminarSocketResource × List NetworkSimulationEvent :=
  match socket.socket with
  | none => (socket, event_channel)
  | some sock =>
      let final := recvLoop sock event_channel
      (⟨some final.1⟩, final.2)

/-- Specification shorthand used in theorem statements below: the
events the send loop appends for one drained message, given the
engine's verdict oracle — exactly one SendError carrying the io error
and the original message for an IOError verdict, nothing for any other
verdict. -/
def sendEvents (verdict : Packet → Option ErrorKind) (message : Message) :
    List NetworkSimulationEvent :=
  match verdict (mapDelivery message) with
  | some (ErrorKind.IOError e) => [NetworkSimulationEvent.SendError e message]
  | some (ErrorKind.Other _) => []
  | none => []

/-- Boolean discriminator for SendError events. -/
def isSendError : NetworkSimulationEvent → Bool
  | .SendError _ _ => true
  | _ => false

/-- A concrete engine instance whose sends all succeed, used to
instantiate theorems at concrete inputs. -/
def sockOk : LaminarSocket :=
  { localAddr := 9, sendResults := fun _ => none, sent := [],
    inbox := [], polls := 0 }

/-- A concrete engine instance whose sends all fail with io error 3. -/
def sockIoFail : LaminarSocket :=
  { localAddr := 9, sendResults := fun _ => some (ErrorKind.IOError 3),
    sent := [], inbox := [], polls := 0 }

/-- A concrete engine instance whose sends all fail with a non-io
(protocol-level) error. -/
def sockProtoFail : LaminarSocket :=
  { localAddr := 9, sendResults := fun _ => some (ErrorKind.Other 5),
    sent := [], inbox := [], polls := 0 }

/-- A concrete engine instance with five pending inbound events. -/
def sockInbox : LaminarSocket :=
  { localAddr := 9, sendResults := fun _ => none, sent := [],
    inbox := [SocketEvent.Packet ⟨4, [1, 2], .Unreliable, .None⟩,
              SocketEvent.Timeout 5, SocketEvent.Connect 6,
              SocketEvent.Disconnect 5,
              SocketEvent.Packet ⟨7, [9], .Reliable, .Ordered none⟩],
    polls := 0 }

/-- A concrete outbound message. -/
def msgPing : Message := ⟨1, [112, 105, 110, 103], .Default⟩

/-- A concrete outbound queue holding msgPing. -/
def queuePing : TransportResource := ⟨[msgPing]⟩

theorem sendOne_eq (sock : LaminarSocket)
    (events : List NetworkSimulationEvent) (message : Message) :
    sendOne sock events message =
      ({ sock with sent := sock.sent ++ [mapDelivery message] },
        events ++ sendEvents sock.sendResults message) := by
  unfold sendOne sendEvents LaminarSocket.send
  cases h : sock.sendResults (mapDelivery message) with
  | none => simp [h]
  | some e => cases e <;> simp [h]

theorem sendLoop_spec (msgs : List Message) (sock : LaminarSocket)
    (events : List NetworkSimulationEvent) :
    msgs.foldl (fun acc message => sendOne acc.1 acc.2 message)
        (sock, events) =
      ({ sock with sent := sock.sent ++ msgs.map mapDelivery },
        events ++ msgs.flatMap (sendEvents sock.sendResults)) := by
  induction msgs generalizing sock events with
  | nil => cases sock; simp
  | cons m ms ih =>
      rw [List.foldl_cons, sendOne_eq, ih]
      cases sock
      simp [List.append_assoc]

theorem recvLoop_eq (sock : LaminarSocket)
    (events : List NetworkSimulationEvent) :
    recvLoop sock events =
      ({ sock with inbox := [] },
        events ++ sock.inbox.map normalizeEvent) := by
  generalize hl : sock.inbox = l
  induction l generalizing sock events with
  | nil =>
      unfold recvLoop LaminarSocket.recv
      rw [hl]
      cases sock
      simp at hl
      simp [hl]
  | cons e rest ih =>
      unfold recvLoop LaminarSocket.recv
      rw [hl]
      simp
      rw [ih { sock with inbox := rest } (events ++ [normalizeEvent e]) rfl]
      simp

theorem send_system_some (transport : TransportResource)
    (sock : LaminarSocket) (events : List NetworkSimulationEvent)
    (sim_time : NetworkSimulationTime) :
    laminar_network_send_system transport ⟨some sock⟩ events sim_time =
      ((transport.drain_messages_to_send fun _ =>
          sim_time.should_send_message_now).2,
        ⟨some { sock with sent := sock.sent ++
          ((transport.drain_messages_to_send fun _ =>
            sim_time.should_send_message_now).1).map mapDelivery }⟩,
        events ++ ((transport.drain_messages_to_send fun _ =>
          sim_time.should_send_message_now).1).flatMap
            (sendEvents sock.sendResults)) := by
  simp only [laminar_network_send_system, sendLoop_spec]

theorem recv_system_some (sock : LaminarSocket)
    (events : List NetworkSimulationEvent) :
    laminar_network_recv_system ⟨some sock⟩ events =
      (⟨some { sock with inbox := [] }⟩,
        events ++ sock.inbox.map normalizeEvent) := by
  simp only [laminar_network_recv_system, recvLoop_eq]

theorem sendEvents_all_isSendError (verdict : Packet → Option ErrorKind)
    (m : Message) :
    (sendEvents verdict m).all isSendError = true := by
  unfold sendEvents
  cases h : verdict (mapDelivery m) with
  | none => simp
  | some e => cases e <;> simp [isSendError]

theorem flatMap_sendEvents_all (verdict : Packet → Option ErrorKind)
    (msgs : List Message) :
    (msgs.flatMap (sendEvents verdict)).all isSendError = true := by
  induction msgs with
  | nil => rfl
  | cons m ms ih =>
      simp only [List.flatMap_cons, List.all_append, ih,
        sendEvents_all_isSendError, Bool.and_self]

/-- C1: the claim states that after a bind failure the handle stays
absent, the process does not crash, and no stage or startup step
panics.  The stages are indeed silent no-ops on an absent handle, but
the startup log step is not panic-free: log_startup unwraps the absent
handle (socket.get().unwrap() in laminar.rs line 52), so in exactly the
bind-failure scenario the claim covers it panics — modelled here by the
none result of log_startup on a resource holding no socket. -/
theorem C1_log_startup_panics_when_handle_absent :
    log_startup (LaminarSocketResource.new none) = none := rfl

/-- C2, counterexample: set_socket is an operation of the core
(laminar.rs lines 182 to 190), and applied to a resource whose handle
is absent it transitions the handle to holding a live engine instance,
refuting the claim that no operation of the core does so. -/
theorem C2_set_socket_revives_absent_handle :
    (LaminarSocketResource.new none).socket = none ∧
    ((LaminarSocketResource.new none).set_socket sockOk).socket =
      some sockOk :=
  ⟨rfl, rfl⟩

/-- C2 (amended): none of the systems the core runs — send, poll,
receive — ever transitions the handle from absent to present; only the
resource's set_socket method, which no system of the core calls, can
re-establish a handle. -/
theorem C2_systems_preserve_absent_handle
    (transport : TransportResource) (res : LaminarSocketResource)
    (events : List NetworkSimulationEvent)
    (sim_time : NetworkSimulationTime)
    (h : res.socket = none) :
    (laminar_network_send_system transport res events
      sim_time).2.1.socket = none ∧
    (laminar_network_poll_system res).socket = none ∧
    (laminar_network_recv_system res events).1.socket = none := by
  obtain ⟨s⟩ := res
  cases h
  exact ⟨rfl, rfl, rfl⟩

theorem C2_systems_preserve_absent_handle_witness :
    (LaminarSocketResource.new none).socket = none ∧
    ((laminar_network_send_system queuePing (LaminarSocketResource.new none)
        [] ⟨true⟩).2.1.socket = none ∧
      (laminar_network_poll_system
        (LaminarSocketResource.new none)).socket = none ∧
      (laminar_network_recv_system (LaminarSocketResource.new none)
        []).1.socket = none) :=
  ⟨rfl, C2_systems_preserve_absent_handle queuePing
    (LaminarSocketResource.new none) [] ⟨true⟩ rfl⟩

/-- C3: over all destinations, payloads and stream ids, the
delivery-requirement mapping is total and deterministic: each of the
five explicit variants maps to exactly the operation kind the claim
names (unreliable / unreliable sequenced on the lane / reliable
unordered / reliable sequenced on the lane / reliable ordered on the
lane), every mapped operation preserves the message's destination and
payload bytes, and the send loop issues exactly one transport send
operation per drained message. -/
theorem C3_delivery_mapping_total_and_faithful
    (dest : SocketAddr) (payload : Payload) (stream_id : Option Nat) :
    mapDelivery ⟨dest, payload, .Unreliable⟩ =
      ⟨dest, payload, .Unreliable, .None⟩ ∧
    mapDelivery ⟨dest, payload, .UnreliableSequenced stream_id⟩ =
      ⟨dest, payload, .Unreliable, .Sequenced stream_id⟩ ∧
    mapDelivery ⟨dest, payload, .Reliable⟩ =
      ⟨dest, payload, .Reliable, .None⟩ ∧
    mapDelivery ⟨dest, payload, .ReliableSequenced stream_id⟩ =
      ⟨dest, payload, .Reliable, .Sequenced stream_id⟩ ∧
    mapDelivery ⟨dest, payload, .ReliableOrdered stream_id⟩ =
      ⟨dest, payload, .Reliable, .Ordered stream_id⟩ ∧
    (∀ m : Message, (mapDelivery m).addr = m.destination ∧
      (mapDelivery m).payload = m.payload) ∧
    (∀ (sock : LaminarSocket) (events : List NetworkSimulationEvent)
      (m : Message),
      (sendOne sock events m).1.sent = sock.sent ++ [mapDelivery m]) := by
  refine ⟨rfl, rfl, rfl, rfl, rfl, ?_, ?_⟩
  · intro m
    obtain ⟨d, p, del⟩ := m
    cases del <;> exact ⟨rfl, rfl⟩
  · intro sock events m
    rw [sendOne_eq]

/-- C4: for every destination and payload, a message with the Default
delivery requirement maps to the very same transport operation as one
with ReliableOrdered(None). -/
theorem C4_default_is_reliable_ordered_none
    (dest : SocketAddr) (payload : Payload) :
    mapDelivery ⟨dest, payload, .Default⟩ =
      mapDelivery ⟨dest, payload, .ReliableOrdered none⟩ := rfl

/-- C5: when the transport handle is absent, the send system returns
the queue, the resource and the event channel exactly unchanged (no
message drained or dropped, no event emitted), and the poll and
receive systems leave all state unchanged and emit nothing (in
particular no engine call happens, since no engine exists to be
stepped). -/
theorem C5_absent_handle_stages_are_noops
    (transport : TransportResource) (res : LaminarSocketResource)
    (events : List NetworkSimulationEvent)
    (sim_time : NetworkSimulationTime)
    (h : res.socket = none) :
    laminar_network_send_system transport res events sim_time =
      (transport, res, events) ∧
    laminar_network_poll_system res = res ∧
    laminar_network_recv_system res events = (res, events) := by
  obtain ⟨s⟩ := res
  cases h
  exact ⟨rfl, rfl, rfl⟩

theorem C5_absent_handle_stages_are_noops_witness :
    (LaminarSocketResource.new none).socket = none ∧
    (laminar_network_send_system queuePing (LaminarSocketResource.new none)
        [] ⟨true⟩ =
      (queuePing, LaminarSocketResource.new none, []) ∧
    laminar_network_poll_system (LaminarSocketResource.new none) =
      LaminarSocketResource.new none ∧
    laminar_network_recv_system (LaminarSocketResource.new none) [] =
      (LaminarSocketResource.new none, [])) :=
  ⟨rfl, C5_absent_handle_stages_are_noops queuePing
    (LaminarSocketResource.new none) [] ⟨true⟩ rfl⟩

/-- C6: with the handle present, the send system sends every drained
message (one transport operation each, so one failure never aborts the
batch) and appends to the event channel exactly the concatenation, in
order, of the per-message events; and for a message whose engine
verdict is an io-level failure those per-message events are exactly
one SendError carrying that io error and the original message with
destination, payload and delivery requirement preserved. -/
theorem C6_io_failure_one_send_error_batch_continues
    (transport : TransportResource) (res : LaminarSocketResource)
    (events : List NetworkSimulationEvent)
    (sim_time : NetworkSimulationTime) (sock : LaminarSocket)
    (m : Message) (e : IoErr)
    (h : res.socket = some sock)
    (hm : sock.sendResults (mapDelivery m) = some (ErrorKind.IOError e)) :
    laminar_network_send_system transport res events sim_time =
      ((transport.drain_messages_to_send fun _ =>
          sim_time.should_send_message_now).2,
        ⟨some { sock with sent := sock.sent ++
          ((transport.drain_messages_to_send fun _ =>
            sim_time.should_send_message_now).1).map mapDelivery }⟩,
        events ++ ((transport.drain_messages_to_send fun _ =>
          sim_time.should_send_message_now).1).flatMap
            (sendEvents sock.sendResults)) ∧
    sendEvents sock.sendResults m =
      [NetworkSimulationEvent.SendError e m] := by
  obtain ⟨s⟩ := res
  cases h
  refine ⟨send_system_some transport sock events sim_time, ?_⟩
  unfold sendEvents
  rw [hm]

theorem C6_io_failure_one_send_error_batch_continues_witness :
    ((LaminarSocketResource.new (some sockIoFail)).socket =
      some sockIoFail ∧
    sockIoFail.sendResults (mapDelivery msgPing) =
      some (ErrorKind.IOError 3)) ∧
    (laminar_network_send_system queuePing
        (LaminarSocketResource.new (some sockIoFail)) [] ⟨true⟩ =
      ((queuePing.drain_messages_to_send fun _ =>
          NetworkSimulationTime.should_send_message_now ⟨true⟩).2,
        ⟨some { sockIoFail with sent := (sockIoFail.sent ++
          ((queuePing.drain_messages_to_send fun _ =>
            NetworkSimulationTime.should_send_message_now ⟨true⟩).1).map
              mapDelivery) }⟩,
        [] ++ ((queuePing.drain_messages_to_send fun _ =>
          NetworkSimulationTime.should_send_message_now ⟨true⟩).1).flatMap
            (sendEvents sockIoFail.sendResults)) ∧
    sendEvents sockIoFail.sendResults msgPing =
      [NetworkSimulationEvent.SendError 3 msgPing]) :=
  ⟨⟨rfl, rfl⟩, C6_io_failure_one_send_error_batch_continues queuePing
    (LaminarSocketResource.new (some sockIoFail)) [] ⟨true⟩ sockIoFail
    msgPing 3 rfl rfl⟩

/-- C7: a drained message whose engine verdict is a non-io
(protocol-level) failure produces no event of any kind: the send-loop
body returns the event channel unchanged (the failure is only logged),
while the send operation was still issued; and the loop continues with
the remaining drained messages from exactly that intermediate state. -/
theorem C7_non_io_failure_logged_only
    (sock : LaminarSocket) (events : List NetworkSimulationEvent)
    (m : Message) (rest : List Message) (code : Nat)
    (h : sock.sendResults (mapDelivery m) = some (ErrorKind.Other code)) :
    sendOne sock events m =
      ({ sock with sent := sock.sent ++ [mapDelivery m] }, events) ∧
    (m :: rest).foldl (fun acc message => sendOne acc.1 acc.2 message)
        (sock, events) =
      rest.foldl (fun acc message => sendOne acc.1 acc.2 message)
        (sendOne sock events m) := by
  refine ⟨?_, rfl⟩
  rw [sendOne_eq]
  unfold sendEvents
  rw [h]
  simp

theorem C7_non_io_failure_logged_only_witness :
    sockProtoFail.sendResults (mapDelivery msgPing) =
      some (ErrorKind.Other 5) ∧
    (sendOne sockProtoFail [] msgPing =
      ({ sockProtoFail with
          sent := sockProtoFail.sent ++ [mapDelivery msgPing] }, []) ∧
    [msgPing].foldl (fun acc message => sendOne acc.1 acc.2 message)
        (sockProtoFail, []) =
      List.foldl (fun acc message => sendOne acc.1 acc.2 message)
        (sendOne sockProtoFail [] msgPing) []) :=
  ⟨rfl, C7_non_io_failure_logged_only sockProtoFail [] msgPing [] 5 rfl⟩

/-- C8: with the handle present, one invocation of the receive system
empties the engine's pending inbound events and appends exactly one
normalized event per pending engine event, in the engine's order (so n
pending events yield exactly n emitted events); and an inbound packet
normalizes to Message carrying the sender address and the packet's
payload bytes. -/
theorem C8_recv_drains_all_pending_in_order
    (res : LaminarSocketResource) (events : List NetworkSimulationEvent)
    (sock : LaminarSocket) (packet : Packet)
    (h : res.socket = some sock) :
    laminar_network_recv_system res events =
      (⟨some { sock with inbox := [] }⟩,
        events ++ sock.inbox.map normalizeEvent) ∧
    (laminar_network_recv_system res events).2.length =
      events.length + sock.inbox.length ∧
    normalizeEvent (SocketEvent.Packet packet) =
      NetworkSimulationEvent.Message packet.addr packet.payload := by
  obtain ⟨s⟩ := res
  cases h
  refine ⟨recv_system_some sock events, ?_, rfl⟩
  rw [recv_system_some]
  simp

theorem C8_recv_drains_all_pending_in_order_witness :
    (LaminarSocketResource.new (some sockInbox)).socket =
      some sockInbox ∧
    (laminar_network_recv_system (LaminarSocketResource.new (some sockInbox))
        [] =
      (⟨some { sockInbox with inbox := [] }⟩,
        [] ++ sockInbox.inbox.map normalizeEvent) ∧
    (laminar_network_recv_system (LaminarSocketResource.new (some sockInbox))
        []).2.length =
      ([] : List NetworkSimulationEvent).length + sockInbox.inbox.length ∧
    normalizeEvent (SocketEvent.Packet ⟨4, [1, 2], .Unreliable, .None⟩) =
      NetworkSimulationEvent.Message 4 [1, 2]) :=
  ⟨rfl, C8_recv_drains_all_pending_in_order
    (LaminarSocketResource.new (some sockInbox)) [] sockInbox
    ⟨4, [1, 2], .Unreliable, .None⟩ rfl⟩

/-- C9: for every peer address, the receive system normalizes an
engine Disconnect notification and an engine Timeout notification to
the very same Disconnect event, so the two engine-level reasons are
indistinguishable in the emitted event stream. -/
theorem C9_disconnect_and_timeout_collapse (addr : SocketAddr) :
    normalizeEvent (SocketEvent.Timeout addr) =
      NetworkSimulationEvent.Disconnect addr ∧
    normalizeEvent (SocketEvent.Disconnect addr) =
      normalizeEvent (SocketEvent.Timeout addr) :=
  ⟨rfl, rfl⟩

/-- C10: a drained message whose engine verdict is success contributes
no event at all: the send-loop body returns the event channel
unchanged; and whatever the starting state, every event the send
system appends to the channel is a SendError (the prefix of the output
channel is the unchanged input channel, and every appended entry
satisfies isSendError). -/
theorem C10_success_silent_channel_only_send_errors
    (sock : LaminarSocket) (events : List NetworkSimulationEvent)
    (m : Message) (transport : TransportResource)
    (res : LaminarSocketResource)
    (events0 : List NetworkSimulationEvent)
    (sim_time : NetworkSimulationTime)
    (h : sock.sendResults (mapDelivery m) = none) :
    sendOne sock events m =
      ({ sock with sent := sock.sent ++ [mapDelivery m] }, events) ∧
    (laminar_network_send_system transport res events0
        sim_time).2.2.take events0.length = events0 ∧
    ((laminar_network_send_system transport res events0
        sim_time).2.2.drop events0.length).all isSendError = true := by
  refine ⟨?_, ?_, ?_⟩
  · rw [sendOne_eq]
    unfold sendEvents
    rw [h]
    simp
  · obtain ⟨s⟩ := res
    cases s with
    | none => simp [laminar_network_send_system]
    | some sock1 =>
        rw [send_system_some]
        simp [List.take_left]
  · obtain ⟨s⟩ := res
    cases s with
    | none => simp [laminar_network_send_system]
    | some sock1 =>
        rw [send_system_some]
        rw [List.drop_left]
        exact flatMap_sendEvents_all _ _

theorem C10_success_silent_channel_only_send_errors_witness :
    sockOk.sendResults (mapDelivery msgPing) = none ∧
    (sendOne sockOk [] msgPing =
      ({ sockOk with sent := sockOk.sent ++ [mapDelivery msgPing] }, []) ∧
    (laminar_network_send_system queuePing
        (LaminarSocketResource.new (some sockIoFail)) [] ⟨true⟩).2.2.take
        (List.length ([] : List NetworkSimulationEvent)) = [] ∧
    ((laminar_network_send_system queuePing
        (LaminarSocketResource.new (some sockIoFail)) [] ⟨true⟩).2.2.drop
        (List.length ([] : List NetworkSimulationEvent))).all
        isSendError = true) :=
  ⟨rfl, C10_success_silent_channel_only_send_errors sockOk [] msgPing
    queuePing (LaminarSocketResource.new (some sockIoFail)) [] ⟨true⟩ rfl⟩

end Blaminar
